import Mathlib

/-!
Verification of the text-duplicate-finder service core.

The Python sources are embedded shallowly:
* `src/main.py` similarity engine: vectors of floats become `List ℝ`,
  `x ** 0.5` becomes `Real.sqrt`, and the `ValueError` raised by
  `zip(..., strict=True)` on unequal lengths becomes `Except.error`.
* `src/embeddings.py` model provider: the lazily-initialized `_model`
  field becomes an explicit `Option`-valued state threaded through the
  operations; the pretrained SentenceTransformer is opaque and is
  abstracted as a per-text encode capability.
* `src/models.py` request validation: the dimension check on
  `SimilarityRequest` becomes an `Except`-valued validator.
-/

namespace TDF

open Classical

/-- Dot product from `calculate_cosine_similarity` (src/main.py line 92):
`sum(a * b for a, b in zip(vector1, vector2, strict=True))`, on the
assumption that the lengths agree (the mismatched case is handled by the
caller below, which returns the `ValueError`). -/
def dot_product (vector1 vector2 : List ℝ) : ℝ :=
  (List.zipWith (fun a b => a * b) vector1 vector2).sum

/-- Sum of squares of the entries, `sum(a * a for a in vector)`
(src/main.py lines 95-96, the radicand of the magnitude). -/
def sum_squares (vector : List ℝ) : ℝ :=
  (vector.map (fun a => a * a)).sum

/-- Magnitude `sum(a * a for a in vector) ** 0.5` (src/main.py lines 95-96). -/
noncomputable def magnitude (vector : List ℝ) : ℝ :=
  Real.sqrt (sum_squares vector)

/-- `calculate_cosine_similarity` (src/main.py lines 73-103).  The strict
zip raises `ValueError` on unequal lengths before any numeric result is
produced; otherwise the zero-magnitude guard returns `0.0`, and the
general case returns `dot_product / (magnitude1 * magnitude2)`. -/
noncomputable def calculate_cosine_similarity (vector1 vector2 : List ℝ) : Except String ℝ :=
  if vector1.length = vector2.length then
    if magnitude vector1 = 0 ∨ magnitude vector2 = 0 then
      Except.ok 0
    else
      Except.ok (dot_product vector1 vector2 / (magnitude vector1 * magnitude vector2))
  else
    Except.error "ValueError"

/-- Response model `SimilarityResponse` (src/models.py lines 335-340). -/
structure SimilarityResponse where
  similarity : ℝ
  is_duplicate : Bool
  threshold : ℝ

/-- Endpoint handler `calculate_similarity` (src/main.py lines 106-125):
fixes `threshold = 0.85`, computes the cosine similarity, and sets
`is_duplicate = similarity >= threshold`.  An exception from the cosine
computation propagates. -/
noncomputable def calculate_similarity (vector1 vector2 : List ℝ) :
    Except String SimilarityResponse :=
  let threshold : ℝ := 0.85
  match calculate_cosine_similarity vector1 vector2 with
  | Except.error e => Except.error e
  | Except.ok similarity =>
      Except.ok { similarity := similarity
                  is_duplicate := if similarity ≥ threshold then true else false
                  threshold := threshold }

/-- Validator `SimilarityRequest.check_same_dimension` (src/models.py
lines 326-332): rejects the request when the two vectors differ in
length, otherwise passes `vector2` through. -/
def check_same_dimension (vector1 vector2 : List ℝ) : Except String (List ℝ) :=
  if vector1.length ≠ vector2.length then
    Except.error "Vectors must have the same dimension"
  else
    Except.ok vector2

/-- Response model `EmbedResponse` (src/models.py lines 259-263). -/
structure EmbedResponse where
  embedding : List ℝ
  dimension : ℕ

/-- Endpoint handler `embed_text` (src/main.py lines 23-45): the current
code ignores the request text and returns a static 1024-dimensional zero
stub vector. -/
def embed_text (_text : String) : EmbedResponse :=
  { embedding := List.replicate 1024 0, dimension := 1024 }

/-- Response model `EmbedBatchResponse` (src/models.py lines 293-298). -/
structure EmbedBatchResponse where
  embeddings : List (List ℝ)
  dimension : ℕ
  count : ℕ

/-- Endpoint handler `embed_batch` (src/main.py lines 48-70): one static
1024-dimensional zero stub vector per input text, `count = len(texts)`. -/
def embed_batch (texts : List String) : EmbedBatchResponse :=
  { embeddings := texts.map (fun _ => List.replicate 1024 0)
    dimension := 1024
    count := texts.length }

/-- Compute device selected in `EmbeddingModel.get_model`
(src/embeddings.py line 44): `"cuda" if torch.cuda.is_available() else "cpu"`. -/
inductive Device
  | cuda
  | cpu

/-- The constructed `SentenceTransformer(...)` handle (src/embeddings.py
lines 47-50), recorded by its constructor arguments; the model itself is
an opaque external resource. -/
structure SentenceTransformer where
  model_name : String
  device : Device

/-- State of the `EmbeddingModel` singleton (src/embeddings.py lines
11-26): the class-level `_model` attribute, `None` until first use.  The
`__new__` override guarantees a single instance per process, so a single
state value models the whole process. -/
structure EmbeddingModel where
  model : Option SentenceTransformer

/-- `EmbeddingModel.get_model` (src/embeddings.py lines 28-52): if the
cached model is `None`, select the device and construct the handle,
storing it; otherwise return the cached handle unchanged.  The ambient
`torch.cuda.is_available()` is passed in as `cuda_available`. -/
def get_model (cuda_available : Bool) (s : EmbeddingModel) :
    SentenceTransformer × EmbeddingModel :=
  match s.model with
  | some m => (m, s)
  | none =>
      let device := if cuda_available then Device.cuda else Device.cpu
      let m : SentenceTransformer := { model_name := "BAAI/bge-large-en-v1.5", device := device }
      (m, { model := some m })

/-- Modelled from the spec: the pretrained embedding model is out of
scope, "opaque: consumed only via an `encode(text) -> vector`
capability"; it is abstracted as a function from the constructed handle
and a text to a vector. -/
def ModelCapability : Type := SentenceTransformer → String → List ℝ

/-- `EmbeddingModel.encode` (src/embeddings.py lines 54-80): obtain the
(lazily loaded) model and apply its encode capability to the one text;
`tolist()` is the identity in this embedding. -/
def encode (raw : ModelCapability) (cuda_available : Bool) (s : EmbeddingModel)
    (text : String) : List ℝ × EmbeddingModel :=
  let p := get_model cuda_available s
  (raw p.1 text, p.2)

/-- Modelled from the spec: the library call
`model.encode(texts, batch_size=32)` is not repository code; the spec
says the provider "internally processes inputs in fixed-size groups
(recommended group size: 32)", applying the per-text capability to each
text in order within each group. -/
def st_encode_list (raw : ModelCapability) (m : SentenceTransformer) :
    List String → List (List ℝ)
  | [] => []
  | t :: ts =>
      (List.take 32 (t :: ts)).map (raw m) ++ st_encode_list raw m (List.drop 32 (t :: ts))
termination_by l => l.length
decreasing_by simp; omega

/-- `EmbeddingModel.encode_batch` (src/embeddings.py lines 82-108):
obtain the (lazily loaded) model and encode the whole list with group
size 32. -/
def encode_batch (raw : ModelCapability) (cuda_available : Bool) (s : EmbeddingModel)
    (texts : List String) : List (List ℝ) × EmbeddingModel :=
  let p := get_model cuda_available s
  (st_encode_list raw p.1 texts, p.2)

/-- A concrete stand-in capability used to instantiate universally
quantified statements: encodes a text as the one-element vector holding
its length. -/
def raw_len : ModelCapability := fun _ t => [(t.length : ℝ)]

/-- A concrete already-constructed model handle, used to instantiate
universally quantified statements about the cached state. -/
def m_cpu : SentenceTransformer :=
  { model_name := "BAAI/bge-large-en-v1.5", device := Device.cpu }

@[simp]
lemma sum_squares_nil : sum_squares [] = 0 := rfl

@[simp]
lemma sum_squares_cons (a : ℝ) (v : List ℝ) :
    sum_squares (a :: v) = a * a + sum_squares v := by
  simp [sum_squares]

@[simp]
lemma dot_product_nil (v : List ℝ) : dot_product [] v = 0 := rfl

@[simp]
lemma dot_product_cons (a b : ℝ) (v1 v2 : List ℝ) :
    dot_product (a :: v1) (b :: v2) = a * b + dot_product v1 v2 := by
  simp [dot_product]

lemma sum_squares_nonneg (v : List ℝ) : 0 ≤ sum_squares v := by
  induction v with
  | nil => simp
  | cons a v ih => simpa using add_nonneg (mul_self_nonneg a) ih

lemma magnitude_nonneg (v : List ℝ) : 0 ≤ magnitude v :=
  Real.sqrt_nonneg _

lemma magnitude_eq_zero_iff (v : List ℝ) : magnitude v = 0 ↔ sum_squares v = 0 := by
  unfold magnitude
  exact Real.sqrt_eq_zero (sum_squares_nonneg v)

lemma sq_magnitude (v : List ℝ) : magnitude v ^ 2 = sum_squares v :=
  Real.sq_sqrt (sum_squares_nonneg v)

lemma sum_squares_eq_finset (v : List ℝ) :
    sum_squares v = ∑ i ∈ Finset.range v.length, (v.getD i 0) ^ 2 := by
  induction v with
  | nil => simp
  | cons a v ih =>
      rw [sum_squares_cons, ih]
      rw [List.length_cons, Finset.sum_range_succ']
      simp [sq]
      ring

lemma dot_product_eq_finset (v1 : List ℝ) :
    ∀ v2 : List ℝ, v1.length = v2.length →
      dot_product v1 v2 = ∑ i ∈ Finset.range v1.length, v1.getD i 0 * v2.getD i 0 := by
  induction v1 with
  | nil => intro v2 _; simp
  | cons a v1 ih =>
      intro v2 h
      match v2 with
      | [] => simp at h
      | b :: v2 =>
          rw [dot_product_cons, ih v2 (by simpa using h)]
          rw [List.length_cons, Finset.sum_range_succ']
          simp
          ring

lemma dot_sq_le_sum_squares (v1 v2 : List ℝ) (h : v1.length = v2.length) :
    dot_product v1 v2 ^ 2 ≤ sum_squares v1 * sum_squares v2 := by
  rw [dot_product_eq_finset v1 v2 h, sum_squares_eq_finset v1, sum_squares_eq_finset v2, ← h]
  exact Finset.sum_mul_sq_le_sq_mul_sq _ _ _

lemma abs_dot_le_mul_magnitude (v1 v2 : List ℝ) (h : v1.length = v2.length) :
    |dot_product v1 v2| ≤ magnitude v1 * magnitude v2 := by
  have hsq : dot_product v1 v2 ^ 2 ≤ (magnitude v1 * magnitude v2) ^ 2 := by
    rw [mul_pow, sq_magnitude, sq_magnitude]
    exact dot_sq_le_sum_squares v1 v2 h
  exact abs_le_of_sq_le_sq hsq (mul_nonneg (magnitude_nonneg v1) (magnitude_nonneg v2))

lemma ccs_of_length_ne (v1 v2 : List ℝ) (h : v1.length ≠ v2.length) :
    calculate_cosine_similarity v1 v2 = Except.error "ValueError" := by
  unfold calculate_cosine_similarity
  rw [if_neg h]

lemma ccs_of_zero_mag (v1 v2 : List ℝ) (hlen : v1.length = v2.length)
    (h : magnitude v1 = 0 ∨ magnitude v2 = 0) :
    calculate_cosine_similarity v1 v2 = Except.ok 0 := by
  unfold calculate_cosine_similarity
  rw [if_pos hlen, if_pos h]

lemma ccs_of_nonzero_mag (v1 v2 : List ℝ) (hlen : v1.length = v2.length)
    (h1 : magnitude v1 ≠ 0) (h2 : magnitude v2 ≠ 0) :
    calculate_cosine_similarity v1 v2 =
      Except.ok (dot_product v1 v2 / (magnitude v1 * magnitude v2)) := by
  unfold calculate_cosine_similarity
  rw [if_pos hlen, if_neg (by push_neg; exact ⟨h1, h2⟩)]

lemma st_encode_list_aux (raw : ModelCapability) (m : SentenceTransformer) :
    ∀ (n : ℕ) (l : List String), l.length ≤ n → st_encode_list raw m l = l.map (raw m) := by
  intro n
  induction n with
  | zero =>
      intro l hl
      match l with
      | [] => rw [st_encode_list]; rfl
      | t :: ts => simp at hl
  | succ n ih =>
      intro l hl
      match l with
      | [] => rw [st_encode_list]; rfl
      | t :: ts =>
          rw [st_encode_list]
          rw [ih (List.drop 32 (t :: ts)) (by simp at hl ⊢; omega)]
          rw [← List.map_append, List.take_append_drop]

lemma st_encode_list_eq_map (raw : ModelCapability) (m : SentenceTransformer)
    (l : List String) : st_encode_list raw m l = l.map (raw m) :=
  st_encode_list_aux raw m l.length l le_rfl

lemma getD_map_vec (f : String → List ℝ) (l : List String) (i : ℕ) (hi : i < l.length) :
    (l.map f).getD i [] = f (l.getD i "") := by
  rw [List.getD_eq_getElem?_getD, List.getD_eq_getElem?_getD, List.getElem?_map,
    List.getElem?_eq_getElem hi]
  rfl

lemma magnitude_single (a : ℝ) (h : 0 ≤ a) : magnitude [a] = a := by
  unfold magnitude
  rw [sum_squares_cons, sum_squares_nil, add_zero]
  exact Real.sqrt_mul_self h

lemma magnitude_replicate_zero (n : ℕ) : magnitude (List.replicate n 0) = 0 := by
  rw [magnitude_eq_zero_iff]
  induction n with
  | zero => rfl
  | succ n ih => simpa [List.replicate_succ] using ih

lemma dot_product_comm (v1 v2 : List ℝ) : dot_product v1 v2 = dot_product v2 v1 := by
  unfold dot_product
  rw [List.zipWith_comm_of_comm _ mul_comm]

lemma ccs_single_one : calculate_cosine_similarity [(1 : ℝ)] [1] = Except.ok 1 := by
  have hm : magnitude [(1 : ℝ)] = 1 := magnitude_single 1 zero_le_one
  rw [ccs_of_nonzero_mag _ _ rfl (by rw [hm]; norm_num) (by rw [hm]; norm_num), hm]
  norm_num

lemma calculate_similarity_single_one :
    calculate_similarity [(1 : ℝ)] [1] =
      Except.ok { similarity := 1, is_duplicate := true, threshold := 0.85 } := by
  unfold calculate_similarity
  rw [ccs_single_one]
  norm_num

/-- Claim C1: for every pair of equal-length vectors of any positive
length (including length 1) whose magnitudes are both non-zero,
`calculate_cosine_similarity` returns exactly `dot(v1,v2) / (||v1|| * ||v2||)`
where `||v||` is the L2 norm, written out as the square root of the sum of
the squared coordinates; being a Lean function, the result is a pure
function of the two inputs. -/
theorem cosine_similarity_is_dot_over_norms (v1 v2 : List ℝ)
    (hlen : v1.length = v2.length) (_hpos : 0 < v1.length)
    (h1 : magnitude v1 ≠ 0) (h2 : magnitude v2 ≠ 0) :
    calculate_cosine_similarity v1 v2 =
      Except.ok ((∑ i ∈ Finset.range v1.length, v1.getD i 0 * v2.getD i 0) /
        (Real.sqrt (∑ i ∈ Finset.range v1.length, (v1.getD i 0) ^ 2) *
         Real.sqrt (∑ i ∈ Finset.range v2.length, (v2.getD i 0) ^ 2))) := by
  rw [ccs_of_nonzero_mag v1 v2 hlen h1 h2, dot_product_eq_finset v1 v2 hlen]
  unfold magnitude
  rw [sum_squares_eq_finset, sum_squares_eq_finset]

/-- Witness for C1 at the length-one vectors `[2]` and `[3]`. -/
theorem cosine_similarity_is_dot_over_norms_witness :
    calculate_cosine_similarity [(2 : ℝ)] [(3 : ℝ)] =
      Except.ok ((∑ i ∈ Finset.range 1, ([(2 : ℝ)].getD i 0 * [(3 : ℝ)].getD i 0)) /
        (Real.sqrt (∑ i ∈ Finset.range 1, ([(2 : ℝ)].getD i 0) ^ 2) *
         Real.sqrt (∑ i ∈ Finset.range 1, ([(3 : ℝ)].getD i 0) ^ 2))) :=
  cosine_similarity_is_dot_over_norms [2] [3] rfl (by norm_num)
    (by rw [magnitude_single 2 (by norm_num)]; norm_num)
    (by rw [magnitude_single 3 (by norm_num)]; norm_num)

/-- Claim C2: for every pair of equal-length vectors such that at least
one of them has magnitude exactly zero, `calculate_cosine_similarity`
returns exactly `0.0` (an `Except.ok`, not an error). -/
theorem cosine_similarity_zero_magnitude (v1 v2 : List ℝ)
    (hlen : v1.length = v2.length)
    (h : magnitude v1 = 0 ∨ magnitude v2 = 0) :
    calculate_cosine_similarity v1 v2 = Except.ok 0 :=
  ccs_of_zero_mag v1 v2 hlen h

/-- Witness for C2 at the zero vector `[0, 0]` against `[1, 2]`. -/
theorem cosine_similarity_zero_magnitude_witness :
    calculate_cosine_similarity [(0 : ℝ), 0] [1, 2] = Except.ok 0 :=
  cosine_similarity_zero_magnitude [0, 0] [1, 2] rfl
    (Or.inl (magnitude_replicate_zero 2))

/-- Claim C3: whenever the compare operation `calculate_similarity`
returns a response, its `is_duplicate` flag is `true` exactly when the
similarity is at least `0.85` (so similarity exactly `0.85` classifies as
duplicate), its `threshold` field is `0.85`, and its `similarity` field
is the value computed by `calculate_cosine_similarity`. -/
theorem classify_duplicate_iff_ge_threshold (v1 v2 : List ℝ)
    (r : SimilarityResponse) (h : calculate_similarity v1 v2 = Except.ok r) :
    (r.is_duplicate = true ↔ r.similarity ≥ 0.85) ∧
    r.threshold = 0.85 ∧
    calculate_cosine_similarity v1 v2 = Except.ok r.similarity := by
  unfold calculate_similarity at h
  cases hc : calculate_cosine_similarity v1 v2 with
  | error e =>
      rw [hc] at h
      exact absurd h (by simp)
  | ok s =>
      rw [hc] at h
      simp only [Except.ok.injEq] at h
      subst h
      refine ⟨?_, rfl, rfl⟩
      by_cases hs : s ≥ (0.85 : ℝ)
      · simp [hs]
      · simp [hs]

/-- Witness for C3 at the length-one vectors `[1]` and `[1]`, whose
similarity `1` is at or above the threshold. -/
theorem classify_duplicate_iff_ge_threshold_witness :
    calculate_similarity [(1 : ℝ)] [1] =
      Except.ok { similarity := 1, is_duplicate := true, threshold := 0.85 } ∧
    ((true : Bool) = true ↔ (1 : ℝ) ≥ 0.85) ∧
    (0.85 : ℝ) = 0.85 ∧
    calculate_cosine_similarity [(1 : ℝ)] [1] = Except.ok 1 :=
  ⟨calculate_similarity_single_one,
   classify_duplicate_iff_ge_threshold [1] [1]
     { similarity := 1, is_duplicate := true, threshold := 0.85 }
     calculate_similarity_single_one⟩

/-- Claim C4: `get_model` constructs the model handle at most once.  On a
state whose model field is `None`, it constructs the handle (with device
GPU if available, else CPU) and caches it; on a state whose model field
is already set, it returns that same cached handle with the state
unchanged; and once the model field is non-`None`, no operation
(`get_model`, `encode`, `encode_batch`) ever reassigns it. -/
theorem get_model_constructs_at_most_once (c : Bool) (s : EmbeddingModel) :
    (s.model = none →
      get_model c s =
        ({ model_name := "BAAI/bge-large-en-v1.5"
           device := if c then Device.cuda else Device.cpu },
         { model := some { model_name := "BAAI/bge-large-en-v1.5"
                           device := if c then Device.cuda else Device.cpu } })) ∧
    (∀ m, s.model = some m → get_model c s = (m, s)) ∧
    (∀ m, s.model = some m →
      ∀ (raw : ModelCapability) (text : String) (texts : List String),
        (get_model c s).2.model = some m ∧
        (encode raw c s text).2.model = some m ∧
        (encode_batch raw c s texts).2.model = some m) := by
  obtain ⟨mo⟩ := s
  cases mo with
  | none =>
      refine ⟨fun _ => rfl, fun m hm => ?_, fun m hm => ?_⟩ <;> exact absurd hm (by simp)
  | some m0 =>
      refine ⟨fun hnone => absurd hnone (by simp), fun m hm => ?_, fun m hm => ?_⟩
      · obtain rfl : m0 = m := by simpa using hm
        rfl
      · obtain rfl : m0 = m := by simpa using hm
        intro raw text texts
        exact ⟨rfl, rfl, rfl⟩

/-- Witness for C4: a first call on the empty state with GPU available
constructs and caches the CUDA handle, and calls on an already-populated
state return the cached handle and leave the field untouched. -/
theorem get_model_constructs_at_most_once_witness :
    get_model true { model := none } =
      ({ model_name := "BAAI/bge-large-en-v1.5", device := Device.cuda },
       { model := some { model_name := "BAAI/bge-large-en-v1.5", device := Device.cuda } }) ∧
    get_model false { model := some m_cpu } = (m_cpu, { model := some m_cpu }) ∧
    (encode raw_len false { model := some m_cpu } "text").2.model = some m_cpu :=
  ⟨(get_model_constructs_at_most_once true { model := none }).1 rfl,
   (get_model_constructs_at_most_once false { model := some m_cpu }).2.1 m_cpu rfl,
   ((get_model_constructs_at_most_once false { model := some m_cpu }).2.2 m_cpu rfl
      raw_len "text" []).2.1⟩

/-- Claim C5: for every capability, state, and non-empty list of texts,
`encode_batch` returns one vector per input text in input order, and its
`i`-th vector equals what `encode` returns on the `i`-th text from the
same state: the internal fixed-size grouping (group size 32) does not
change output values or order. -/
theorem encode_batch_matches_encode (raw : ModelCapability) (c : Bool)
    (s : EmbeddingModel) (texts : List String) (_h : texts ≠ [])
    (i : ℕ) (hi : i < texts.length) :
    (encode_batch raw c s texts).1.length = texts.length ∧
    (encode_batch raw c s texts).1.getD i [] = (encode raw c s (texts.getD i "")).1 := by
  refine ⟨?_, ?_⟩
  · show (st_encode_list raw (get_model c s).1 texts).length = texts.length
    rw [st_encode_list_eq_map]
    simp
  · show (st_encode_list raw (get_model c s).1 texts).getD i [] =
      raw (get_model c s).1 (texts.getD i "")
    rw [st_encode_list_eq_map]
    exact getD_map_vec _ texts i hi

/-- Witness for C5 on a two-text batch: the second batched vector equals
the individually encoded second text. -/
theorem encode_batch_matches_encode_witness :
    (encode_batch raw_len true { model := none } ["a", "bb"]).1.getD 1 [] =
      (encode raw_len true { model := none } (["a", "bb"].getD 1 "")).1 :=
  (encode_batch_matches_encode raw_len true { model := none } ["a", "bb"]
    (List.cons_ne_nil _ _) 1 (by norm_num)).2

/-- Claim C6 (code divergence): the embed-single endpoint `embed_text`
currently returns the static 1024-dimensional zero stub vector for every
text, whose L2 magnitude is exactly `0` and hence not within `0.01` of
`1.0` as the claim requires. -/
theorem embed_text_stub_zero_vector :
    (embed_text "Sample text for embedding").embedding = List.replicate 1024 (0 : ℝ) ∧
    magnitude (embed_text "Sample text for embedding").embedding = 0 ∧
    ¬ |magnitude (embed_text "Sample text for embedding").embedding - 1| ≤ 0.01 := by
  refine ⟨rfl, magnitude_replicate_zero 1024, ?_⟩
  show ¬ |magnitude (List.replicate 1024 (0 : ℝ)) - 1| ≤ 0.01
  rw [magnitude_replicate_zero 1024]
  rw [show (0 : ℝ) - 1 = -1 by norm_num, abs_neg, abs_one]
  norm_num

/-- Claim C7: for every pair of vectors of unequal lengths,
`calculate_cosine_similarity` fails deterministically with the
`ValueError` raised by the strict zip (and the request validator rejects
the pair as well); in particular no numeric `Except.ok` result is ever
produced, so the computation is never silently truncated to the shorter
vector's length. -/
theorem mismatched_lengths_error (v1 v2 : List ℝ) (h : v1.length ≠ v2.length) :
    calculate_cosine_similarity v1 v2 = Except.error "ValueError" ∧
    check_same_dimension v1 v2 = Except.error "Vectors must have the same dimension" ∧
    ∀ x : ℝ, calculate_cosine_similarity v1 v2 ≠ Except.ok x := by
  refine ⟨ccs_of_length_ne v1 v2 h, ?_, ?_⟩
  · unfold check_same_dimension
    rw [if_pos h]
  · intro x hx
    rw [ccs_of_length_ne v1 v2 h] at hx
    exact Except.noConfusion hx

/-- Witness for C7 at `[1]` against `[1, 2]`. -/
theorem mismatched_lengths_error_witness :
    calculate_cosine_similarity [(1 : ℝ)] [1, 2] = Except.error "ValueError" ∧
    check_same_dimension [(1 : ℝ)] [1, 2] =
      Except.error "Vectors must have the same dimension" :=
  ⟨(mismatched_lengths_error [1] [1, 2] (by norm_num)).1,
   (mismatched_lengths_error [1] [1, 2] (by norm_num)).2.1⟩

/-- Claim C8: for every non-empty list of `n` input texts, the
embed-batch endpoint returns a response whose `count` field equals `n`
and whose `embeddings` list contains exactly `n` vectors, all of the same
dimension (the response's `dimension` field, `1024`). -/
theorem embed_batch_count_and_dims (texts : List String) (_h : texts ≠ []) :
    (embed_batch texts).count = texts.length ∧
    (embed_batch texts).embeddings.length = texts.length ∧
    (embed_batch texts).dimension = 1024 ∧
    ∀ e ∈ (embed_batch texts).embeddings, e.length = 1024 := by
  refine ⟨rfl, by simp only [embed_batch, List.length_map], rfl, ?_⟩
  intro e he
  simp only [embed_batch, List.mem_map] at he
  obtain ⟨t, -, rfl⟩ := he
  exact List.length_replicate _ _

/-- Witness for C8 at the five-text batch from the spec's end-to-end
scenario 2. -/
theorem embed_batch_count_and_dims_witness :
    (embed_batch ["First", "Second", "Third", "Fourth", "Fifth"]).count = 5 ∧
    (embed_batch ["First", "Second", "Third", "Fourth", "Fifth"]).embeddings.length = 5 ∧
    (embed_batch ["First", "Second", "Third", "Fourth", "Fifth"]).dimension = 1024 :=
  ⟨(embed_batch_count_and_dims ["First", "Second", "Third", "Fourth", "Fifth"] (List.cons_ne_nil _ _)).1,
   (embed_batch_count_and_dims ["First", "Second", "Third", "Fourth", "Fifth"] (List.cons_ne_nil _ _)).2.1,
   (embed_batch_count_and_dims ["First", "Second", "Third", "Fourth", "Fifth"] (List.cons_ne_nil _ _)).2.2.1⟩

/-- Claim C9: every similarity value actually returned by
`calculate_cosine_similarity` lies in the closed interval `[-1, 1]`
(by the Cauchy-Schwarz inequality in the non-degenerate branch, and
directly in the zero-magnitude branch). -/
theorem similarity_in_unit_interval (v1 v2 : List ℝ) (s : ℝ)
    (h : calculate_cosine_similarity v1 v2 = Except.ok s) : -1 ≤ s ∧ s ≤ 1 := by
  by_cases hlen : v1.length = v2.length
  · by_cases hz : magnitude v1 = 0 ∨ magnitude v2 = 0
    · rw [ccs_of_zero_mag v1 v2 hlen hz] at h
      injection h with h'
      subst h'
      norm_num
    · push_neg at hz
      rw [ccs_of_nonzero_mag v1 v2 hlen hz.1 hz.2] at h
      injection h with h'
      subst h'
      have hm1 : 0 < magnitude v1 := lt_of_le_of_ne (magnitude_nonneg v1) (Ne.symm hz.1)
      have hm2 : 0 < magnitude v2 := lt_of_le_of_ne (magnitude_nonneg v2) (Ne.symm hz.2)
      have hp : 0 < magnitude v1 * magnitude v2 := mul_pos hm1 hm2
      have habs := abs_dot_le_mul_magnitude v1 v2 hlen
      rw [abs_le] at habs
      constructor
      · rw [le_div_iff₀ hp]
        linarith [habs.1]
      · rw [div_le_one hp]
        exact habs.2
  · rw [ccs_of_length_ne v1 v2 hlen] at h
    exact absurd h (by simp)

/-- Witness for C9 at the zero vectors `[0]` and `[0]`, whose similarity
`0` lies in the interval. -/
theorem similarity_in_unit_interval_witness : -1 ≤ (0 : ℝ) ∧ (0 : ℝ) ≤ 1 :=
  similarity_in_unit_interval [0] [0] 0
    (ccs_of_zero_mag [0] [0] rfl (Or.inl (magnitude_single 0 le_rfl)))

/-- Claim C10: `calculate_cosine_similarity` is symmetric in its two
arguments (in every branch: mismatch, zero magnitude, and the general
dot-product branch). -/
theorem cosine_similarity_symm (v1 v2 : List ℝ) :
    calculate_cosine_similarity v1 v2 = calculate_cosine_similarity v2 v1 := by
  by_cases hlen : v1.length = v2.length
  · by_cases hz : magnitude v1 = 0 ∨ magnitude v2 = 0
    · rw [ccs_of_zero_mag v1 v2 hlen hz, ccs_of_zero_mag v2 v1 hlen.symm hz.symm]
    · push_neg at hz
      rw [ccs_of_nonzero_mag v1 v2 hlen hz.1 hz.2,
        ccs_of_nonzero_mag v2 v1 hlen.symm hz.2 hz.1,
        dot_product_comm, mul_comm]
  · rw [ccs_of_length_ne v1 v2 hlen, ccs_of_length_ne v2 v1 (Ne.symm hlen)]

end TDF
